import Mathlib

/-!
Shallow embedding of the conversation-assembly and retry-call pipeline of
`src/app.py` (StockBot AI): message history management, context injection,
the backoff-based call to the generation endpoint, and the session-level
handlers that mutate the stored conversation.

Network and persistence collaborators are abstracted by oracles:
an attempt-indexed oracle gives the HTTP outcome of each POST, and a
persistence outcome models the Firestore `set` call.  Numeric market fields
are kept as their displayed text, since the program only ever interpolates
them into prompt strings.
-/

namespace StockBot

/-- A role-tagged chat message, as stored in `st.session_state["messages"]`:
a dict `{"role": ..., "content": ...}` with string-valued fields. -/
structure Message where
  role : String
  content : String
deriving DecidableEq, Repr

/-- The `SYSTEM_PROMPT` constant of `src/app.py` (triple-quoted, so it starts
and ends with a newline). -/
def SYSTEM_PROMPT : String :=
  "\nYou are StockBot AI, a helpful, concise, and expert financial assistant.\nYour goal is to provide analysis and answer user questions about the stock market and specific companies.\nYou have access to a Google Search tool for current, real-time grounding. Use it for current price, news, and recent performance whenever needed.\nIf specific stock data is provided in the CONTEXT section of the user\x27s prompt (from yfinance), you MUST also use that data for your analysis and comparisons.\nKeep your answers professional, informative, and focused on the user\x27s financial inquiry.\n"

/-- The system message `{"role": "system", "content": SYSTEM_PROMPT}`. -/
def system_message : Message :=
  { role := "system", content := SYSTEM_PROMPT }

/-! ## Gemini response bodies

The parsed JSON of a 200 response, structured as the extraction code reads it:
`result.get("candidates")`, `candidates[0].get("content")`,
`content.get("parts")`, `parts[0]["text"]`.  `Option` models an absent (or
JSON-falsy) field; an empty list is falsy in Python, which the truthiness
chain in the code checks for. -/

/-- One element of a candidate's `content.parts`; `text` is `none` when the
part has no `"text"` key (subscripting it then raises `KeyError`). -/
structure Part where
  text : Option String
deriving DecidableEq, Repr

/-- A candidate's `content` object: its `parts` list (absent or empty both
read as falsy through `.get("parts")`, modelled as `[]`). -/
structure Content where
  parts : List Part
deriving DecidableEq, Repr

/-- One element of `candidates`; `content` is `none` when
`candidates[0].get("content")` is falsy. -/
structure Candidate where
  content : Option Content
deriving DecidableEq, Repr

/-- The parsed JSON body of a 200 response. `candidates = none` models a body
whose `"candidates"` key is missing. -/
structure GeminiBody where
  candidates : Option (List Candidate)
deriving DecidableEq, Repr

/-- Outcome of one `requests.post` attempt, as the `try` block observes it:
a 200 with a parsed JSON body (`none` for a JSON-falsy body such as `null`
or `{}`, which fails the `if result` check), an HTTP error status raised by
`raise_for_status` carrying `errh.response.text`, or a transport-level
`RequestException`. -/
inductive HttpOutcome where
  | success (body : Option GeminiBody)
  | httpError (status : Nat) (body : String)
  | transportError (err : String)
deriving DecidableEq, Repr

/-! ## Error strings returned by `get_gemini_response` -/

def configuration_error : String :=
  "⚠️ **Configuration Error:** The `GEMINI_API_KEY` is not set in your `.env` file."

def api_response_error : String :=
  "⚠️ **API Response Error:** The Gemini API returned an empty or unexpected response structure."

def http_error_string (status : Nat) (body : String) : String :=
  "⚠️ **HTTP Error (Gemini):** Status " ++ toString status ++ ". Error: " ++ body

def connection_error_string (err : String) : String :=
  "⚠️ **Connection Error (Gemini):** " ++ err

/-- The string built at loop exit (`return` after the `for` loop). -/
def retries_exhausted_error : String :=
  "⚠️ **Error:** Failed to get a response after multiple retries due to rate limiting."

/-! ## Reply extraction from a 200 body -/

/-- The text-extraction step of `get_gemini_response` on a 200 response:
`if result and result.get("candidates") and result["candidates"][0].get("content")
and result["candidates"][0]["content"].get("parts"): return ...parts[0]["text"]
else: return api_response_error`.  `Except.error ()` models the uncaught
`KeyError` raised by `parts[0]["text"]` when the first part has no text. -/
def extract_reply (result : Option GeminiBody) : Except Unit String :=
  match result with
  | none => Except.ok api_response_error
  | some r =>
    match r.candidates with
    | none => Except.ok api_response_error
    | some [] => Except.ok api_response_error
    | some (c :: _) =>
      match c.content with
      | none => Except.ok api_response_error
      | some ct =>
        match ct.parts with
        | [] => Except.ok api_response_error
        | p :: _ =>
          match p.text with
          | none => Except.error ()
          | some t => Except.ok t

/-- The first candidate's first text part, when the body has the full
expected shape. -/
def first_candidate_text (result : Option GeminiBody) : Option String :=
  match result with
  | none => none
  | some r =>
    match r.candidates with
    | some (c :: _) =>
      match c.content with
      | some ct =>
        match ct.parts with
        | p :: _ => p.text
        | [] => none
      | none => none
    | _ => none

/-- The malformed-shape cases enumerated by the truthiness chain: falsy body,
no (or empty) `candidates`, first candidate without `content`, or `content`
without `parts`. -/
def lacks_expected_shape (result : Option GeminiBody) : Bool :=
  match result with
  | none => true
  | some r =>
    match r.candidates with
    | none => true
    | some [] => true
    | some (c :: _) =>
      match c.content with
      | none => true
      | some ct => ct.parts.isEmpty

/-! ## The Gemini call with retry -/

/-- Outbound `contents` entry: `{"role": role, "parts": [{"text": text}]}`. -/
structure GeminiContent where
  role : String
  text : String
deriving DecidableEq, Repr

/-- The conversion loop at the top of `get_gemini_response`: each `system`
message is diverted (last one wins) into `system_instruction_part` and
skipped; every other message is appended with role `user` if its role is
`"user"` and `model` otherwise. -/
def to_gemini_contents (api_messages : List Message) : List GeminiContent × Option String :=
  api_messages.foldl
    (fun acc msg =>
      if msg.role = "system" then (acc.1, some msg.content)
      else
        (acc.1 ++ [{ role := if msg.role = "user" then "user" else "model",
                     text := msg.content }],
         acc.2))
    ([], none)

/-- `max_retries = 3` in `get_gemini_response`. -/
def max_retries : Nat := 3

/-- The `for attempt in range(max_retries)` loop of `get_gemini_response`.
`attempts` is the list of remaining attempt indices, `sleeps` accumulates the
durations passed to `time.sleep` so far.  On a 429 with attempts remaining
(`attempt < max_retries - 1`) it sleeps `2 ^ attempt` seconds and retries;
any other HTTP error and any transport error return at once; falling off the
loop returns the retries-exhausted string.  `Except.error ()` propagates the
uncaught `KeyError` of `extract_reply`. -/
def gemini_retry_loop (responses : Nat → HttpOutcome) :
    List Nat → List Nat → Except Unit (String × List Nat)
  | [], sleeps => Except.ok (retries_exhausted_error, sleeps)
  | attempt :: rest, sleeps =>
    match responses attempt with
    | HttpOutcome.success body =>
      match extract_reply body with
      | Except.ok s => Except.ok (s, sleeps)
      | Except.error e => Except.error e
    | HttpOutcome.httpError status bodyText =>
      if status = 429 ∧ attempt < max_retries - 1 then
        gemini_retry_loop responses rest (sleeps ++ [2 ^ attempt])
      else
        Except.ok (http_error_string status bodyText, sleeps)
    | HttpOutcome.transportError err =>
      Except.ok (connection_error_string err, sleeps)

/-- `get_gemini_response(api_messages)`.  `apiKey` models `GEMINI_API_KEY`
(`none` when unset; the empty string is also falsy under `if not ...`).
`responses` is the network oracle giving each attempt's outcome of POSTing
the payload built from `api_messages`.  Returns the reply (or error) string
together with the list of sleep durations performed, or `Except.error ()`
for an uncaught exception. -/
def get_gemini_response (apiKey : Option String) (api_messages : List Message)
    (responses : Nat → HttpOutcome) : Except Unit (String × List Nat) :=
  match apiKey with
  | none => Except.ok (configuration_error, [])
  | some k =>
    if k = "" then Except.ok (configuration_error, [])
    else
      -- payload = {"contents": ..., "systemInstruction": ..., "tools": [{"google_search": {}}]}
      let _payload := to_gemini_contents api_messages
      gemini_retry_loop responses (List.range max_retries) []

/-! ## Market snapshot lookup -/

/-- The fields `fetch_stock_data` reads from `yf.Ticker(symbol).info`; `none`
models an absent key.  The program only interpolates these values into
strings, so they are kept as their displayed text. -/
structure TickerInfo where
  regularMarketPrice : Option String
  currentPrice : Option String
  shortName : Option String
  sector : Option String
  fiftyTwoWeekHigh : Option String
  fiftyTwoWeekLow : Option String
  longBusinessSummary : Option String
  marketCap : Option String
deriving DecidableEq, Repr

/-- The snapshot dict built by `fetch_stock_data`. -/
structure StockData where
  symbol : String
  shortName : String
  sector : String
  currentPrice : String
  fiftyTwoWeekHigh : String
  fiftyTwoWeekLow : String
  longBusinessSummary : String
  marketCap : String
deriving DecidableEq, Repr

/-- `fetch_stock_data(symbol)`.  `info` is the lookup oracle: `none` when
`yf.Ticker(...).info` itself raises.  When both price fields are missing a
`ValueError` is raised; every exception is caught by the surrounding
`except`, which shows a sidebar error and returns `None`. -/
def fetch_stock_data (symbol : String) (info : Option TickerInfo) : Option StockData :=
  match info with
  | none => none
  | some i =>
    if i.regularMarketPrice = none ∧ i.currentPrice = none then none
    else
      some
        { symbol := symbol.toUpper
          shortName := i.shortName.getD symbol.toUpper
          sector := i.sector.getD "N/A"
          currentPrice := i.currentPrice.getD (i.regularMarketPrice.getD "N/A")
          fiftyTwoWeekHigh := i.fiftyTwoWeekHigh.getD "N/A"
          fiftyTwoWeekLow := i.fiftyTwoWeekLow.getD "N/A"
          longBusinessSummary := i.longBusinessSummary.getD "No business summary available."
          marketCap := i.marketCap.getD "N/A" }

/-! ## Session state and handlers -/

/-- The session-state keys the pipeline mutates: `st.session_state["messages"]`,
`st.session_state["stock_data"]`, and `st.session_state["chat_input_text"]`. -/
structure SessionState where
  messages : List Message
  stock_data : Option StockData
  chat_input_text : String
deriving DecidableEq, Repr

/-- `load_chat_history`, as a function of the persisted document's `messages`
field: `none` when the doc is absent, its `messages` field is falsy, or the
Firestore read raised (all three paths initialise `[system_message]`).
Otherwise, `if not loaded_messages or loaded_messages[0].get("role") != "system"`
the system prompt is inserted at index 0. -/
def load_chat_history (doc : Option (List Message)) : List Message :=
  match doc with
  | none => [system_message]
  | some loaded =>
    if (loaded.head?.map Message.role) ≠ some "system" then system_message :: loaded
    else loaded

/-- The fresh initialisation `st.session_state["messages"] =
[{"role": "system", "content": SYSTEM_PROMPT}]` (also used as the reset value
when a new stock context is set). -/
def initial_messages : List Message := [system_message]

/-- The `set_chat_input(query)` callback run when a previous-query sidebar
button is clicked: it stores the text in `chat_input_text`, appends the query
to `messages` as a user turn, and triggers a rerun. -/
def set_chat_input (st : SessionState) (query : String) : SessionState :=
  { st with
    chat_input_text := query
    messages := st.messages ++ [{ role := "user", content := query }] }

/-- The observable effect of replaying a historical query from the sidebar.
`set_chat_input` appends the query and calls `st.rerun()`; on that rerun
`st.chat_input` (used without a `value` argument) yields no fresh submission,
so the chat submission block, guarded by `if user_input:`, does not run.
The replayed turn therefore amounts to the callback alone. -/
def replay_query_turn (st : SessionState) (query : String) : SessionState :=
  set_chat_input st query

/-- The duplicate-guarded user append of the chat submission handler:
`if not st.session_state["messages"][-1]["content"] == user_input: append`.
(In flow `messages` always carries at least the system message, so the
`[-1]` subscript is defined.) -/
def append_user_guarded (messages : List Message) (user_input : String) : List Message :=
  if ¬ (messages.getLast?.map Message.content = some user_input) then
    messages ++ [{ role := "user", content := user_input }]
  else messages

/-- The context-injection step of the chat submission handler:
`api_messages = list(messages)` (a copy), and if a snapshot is active a
synthetic user message is inserted at `last_user_index = len(api_messages) - 1`,
immediately before the last message. -/
def context_text (data : StockData) : String :=
  "\n        CONTEXT: The user\x27s query relates to the currently active stock: "
    ++ data.symbol ++ " (" ++ data.shortName
    ++ ").\n        Use the following real-time data for your analysis:\n        - Current Price: $"
    ++ data.currentPrice ++ "\n        - 52-Week Range: $"
    ++ data.fiftyTwoWeekLow ++ " - $" ++ data.fiftyTwoWeekHigh
    ++ "\n        - Sector: " ++ data.sector
    ++ "\n        - Business Summary (Partial): "
    ++ ((data.longBusinessSummary.take 500).replace "\n" " ")
    ++ "...\n        "

/-- The synthetic context message `{"role": "user", "content": context_message}`. -/
def context_message (data : StockData) : Message :=
  { role := "user", content := context_text data }

/-- Builds `api_messages` from the stored conversation and the active
snapshot (if any): `list.insert(len - 1, context_message)`. -/
def inject_context (messages : List Message) (stock_data : Option StockData) : List Message :=
  match stock_data with
  | none => messages
  | some data => messages.insertIdx (messages.length - 1) (context_message data)

/-- The result of one run of the chat submission block. -/
structure TurnResult where
  state : SessionState
  api_messages : List Message
  sleeps : List Nat
  persist_warning : Option String
deriving DecidableEq, Repr

/-- The chat submission block (`if user_input:` body): guarded user append,
context injection, Gemini call, assistant append, and the Firestore
checkpoint.  `persist` models `history_doc_ref.set(...)`: `none` when no
`history_doc_ref` is present (save skipped), `some (Except.ok ())` for a
successful write, `some (Except.error e)` when the write raises — the
exception is caught and surfaced as a `st.warning`, never propagated. -/
def chat_submission_handler (apiKey : Option String) (responses : Nat → HttpOutcome)
    (persist : Option (Except String Unit)) (st : SessionState) (user_input : String) :
    Except Unit TurnResult :=
  let messages1 := append_user_guarded st.messages user_input
  let api_messages := inject_context messages1 st.stock_data
  match get_gemini_response apiKey api_messages responses with
  | Except.error e => Except.error e
  | Except.ok (bot_reply, sleeps) =>
    let messages2 := messages1 ++ [{ role := "assistant", content := bot_reply }]
    let warning :=
      match persist with
      | some (Except.error e) => some ("Failed to save history to Firestore: " ++ e)
      | _ => none
    Except.ok
      { state := { st with messages := messages2 }
        api_messages := api_messages
        sleeps := sleeps
        persist_warning := warning }

/-- The "Fetch and Set Context" button handler: with a truthy (nonempty)
`symbol_input` it stores `fetch_stock_data`'s result into `stock_data`
unconditionally, and only when that result is truthy resets the conversation
to `[system_message]`.  An empty input just shows a warning. -/
def fetch_and_set_context (st : SessionState) (symbol_input : String)
    (info : Option TickerInfo) : SessionState :=
  if symbol_input ≠ "" then
    let data := fetch_stock_data symbol_input info
    match data with
    | some _ => { st with stock_data := data, messages := initial_messages }
    | none => { st with stock_data := data }
  else st

/-! ## Helper lemmas -/

lemma range_max_retries : List.range max_retries = [0, 1, 2] := rfl

lemma extract_reply_of_first_text :
    ∀ (body : Option GeminiBody) (t : String),
      first_candidate_text body = some t → extract_reply body = Except.ok t
  | none, t, h => by simp [first_candidate_text] at h
  | some ⟨none⟩, t, h => by simp [first_candidate_text] at h
  | some ⟨some []⟩, t, h => by simp [first_candidate_text] at h
  | some ⟨some (⟨none⟩ :: _)⟩, t, h => by simp [first_candidate_text] at h
  | some ⟨some (⟨some ⟨[]⟩⟩ :: _)⟩, t, h => by simp [first_candidate_text] at h
  | some ⟨some (⟨some ⟨p :: ps⟩⟩ :: _)⟩, t, h => by
      simp only [first_candidate_text] at h
      simp [extract_reply, h]

lemma extract_reply_of_lacks_shape :
    ∀ (body : Option GeminiBody), lacks_expected_shape body = true →
      extract_reply body = Except.ok api_response_error
  | none, _ => rfl
  | some ⟨none⟩, _ => rfl
  | some ⟨some []⟩, _ => rfl
  | some ⟨some (⟨none⟩ :: _)⟩, _ => rfl
  | some ⟨some (⟨some ⟨[]⟩⟩ :: _)⟩, _ => rfl
  | some ⟨some (⟨some ⟨p :: ps⟩⟩ :: _)⟩, h => by
      simp [lacks_expected_shape] at h

lemma get_gemini_response_eq_loop (k : String) (hk : k ≠ "") (msgs : List Message)
    (responses : Nat → HttpOutcome) :
    get_gemini_response (some k) msgs responses = gemini_retry_loop responses [0, 1, 2] [] := by
  simp only [get_gemini_response, if_neg hk, range_max_retries]

/-- C2 counterexample evaluation target: three 429 responses in a row. -/
theorem triple_429_not_retries_exhausted :
    get_gemini_response (some "key") [] (fun _ => HttpOutcome.httpError 429 "quota")
      = Except.ok (http_error_string 429 "quota", [1, 2]) ∧
    http_error_string 429 "quota" ≠ retries_exhausted_error := by
  exact ⟨rfl, by decide⟩

/-- C2 (amended): when every one of the 3 attempts receives HTTP 429, the
function sleeps 1s then 2s and returns the formatted HTTP error string built
from the third response (status 429 and its body), not the retries-exhausted
string built at loop exit, which this path never reaches. -/
theorem triple_429_returns_http_error_string (k : String) (hk : k ≠ "")
    (msgs : List Message) (responses : Nat → HttpOutcome) (b0 b1 b2 : String)
    (h0 : responses 0 = HttpOutcome.httpError 429 b0)
    (h1 : responses 1 = HttpOutcome.httpError 429 b1)
    (h2 : responses 2 = HttpOutcome.httpError 429 b2) :
    get_gemini_response (some k) msgs responses
      = Except.ok (http_error_string 429 b2, [1, 2]) := by
  rw [get_gemini_response_eq_loop k hk msgs responses]
  simp [gemini_retry_loop, h0, h1, h2, max_retries]

/-- C2 witness for `triple_429_returns_http_error_string`. -/
theorem triple_429_returns_http_error_string_witness :
    get_gemini_response (some "key") [] (fun _ => HttpOutcome.httpError 429 "quota exceeded")
      = Except.ok (http_error_string 429 "quota exceeded", [1, 2]) :=
  triple_429_returns_http_error_string "key" (by decide) []
    (fun _ => HttpOutcome.httpError 429 "quota exceeded")
    "quota exceeded" "quota exceeded" "quota exceeded" rfl rfl rfl

/-- C4: if the endpoint returns HTTP 429 on the first two attempts and a
well-formed 200 body on the third, `get_gemini_response` returns the first
candidate's first text part and sleeps exactly twice, 2^0 = 1s then 2^1 = 2s,
in that order. -/
theorem retry_twice_then_success (k : String) (hk : k ≠ "")
    (msgs : List Message) (responses : Nat → HttpOutcome)
    (b0 b1 : String) (body : Option GeminiBody) (t : String)
    (h0 : responses 0 = HttpOutcome.httpError 429 b0)
    (h1 : responses 1 = HttpOutcome.httpError 429 b1)
    (h2 : responses 2 = HttpOutcome.success body)
    (ht : first_candidate_text body = some t) :
    get_gemini_response (some k) msgs responses = Except.ok (t, [2 ^ 0, 2 ^ 1]) := by
  rw [get_gemini_response_eq_loop k hk msgs responses]
  simp [gemini_retry_loop, h0, h1, h2, max_retries, extract_reply_of_first_text body t ht]

/-- C4 witness for `retry_twice_then_success`. -/
theorem retry_twice_then_success_witness :
    get_gemini_response (some "key") []
        (fun n => if n < 2 then HttpOutcome.httpError 429 "quota"
                  else HttpOutcome.success (some ⟨some [⟨some ⟨[⟨some "All good."⟩]⟩⟩]⟩))
      = Except.ok ("All good.", [2 ^ 0, 2 ^ 1]) :=
  retry_twice_then_success "key" (by decide) []
    (fun n => if n < 2 then HttpOutcome.httpError 429 "quota"
              else HttpOutcome.success (some ⟨some [⟨some ⟨[⟨some "All good."⟩]⟩⟩]⟩))
    "quota" "quota" (some ⟨some [⟨some ⟨[⟨some "All good."⟩]⟩⟩]⟩) "All good."
    rfl rfl rfl rfl

/-- C6: a non-429 HTTP error status received on any attempt `j` (reached
through 429s alone) makes `get_gemini_response` return at once with the
formatted error string containing the status code and the server-provided
error body: no sleep is performed at or after attempt `j` and no further
attempt is made (the result is fixed whatever the oracle answers later). -/
theorem non_429_http_error_returns_immediately (k : String) (hk : k ≠ "")
    (msgs : List Message) (responses : Nat → HttpOutcome)
    (j : Nat) (hj : j < max_retries) (s : Nat) (hs : s ≠ 429) (b : String)
    (hprev : ∀ i, i < j → ∃ bi, responses i = HttpOutcome.httpError 429 bi)
    (herr : responses j = HttpOutcome.httpError s b) :
    get_gemini_response (some k) msgs responses
      = Except.ok (http_error_string s b, (List.range j).map (fun a => 2 ^ a)) := by
  rw [get_gemini_response_eq_loop k hk msgs responses]
  have hj3 : j < 3 := hj
  interval_cases j
  · simp [gemini_retry_loop, herr, hs]
  · obtain ⟨c0, h0⟩ := hprev 0 (by decide)
    simp [gemini_retry_loop, h0, herr, hs, max_retries, List.range_succ]
  · obtain ⟨c0, h0⟩ := hprev 0 (by decide)
    obtain ⟨c1, h1⟩ := hprev 1 (by decide)
    simp [gemini_retry_loop, h0, h1, herr, hs, max_retries, List.range_succ]

/-- C6 witness for `non_429_http_error_returns_immediately`: HTTP 500 on the
first attempt, zero sleeps. -/
theorem non_429_http_error_returns_immediately_witness :
    get_gemini_response (some "key") [] (fun _ => HttpOutcome.httpError 500 "server error")
      = Except.ok (http_error_string 500 "server error", []) := by
  have h := non_429_http_error_returns_immediately "key" (by decide) []
    (fun _ => HttpOutcome.httpError 500 "server error")
    0 (by decide) 500 (by decide) "server error"
    (fun i hi => absurd hi (Nat.not_lt_zero i)) rfl
  simpa using h

/-- C7: an HTTP 200 response whose JSON body lacks the expected shape (falsy
body, no candidates, first candidate without content, or content without
parts) makes `get_gemini_response` return the fixed "empty or unexpected
response" error string, and the extraction step returns rather than raising
(the result is `Except.ok`, never `Except.error`). -/
theorem malformed_200_returns_fixed_error (k : String) (hk : k ≠ "")
    (msgs : List Message) (responses : Nat → HttpOutcome) (body : Option GeminiBody)
    (h0 : responses 0 = HttpOutcome.success body)
    (hbad : lacks_expected_shape body = true) :
    extract_reply body = Except.ok api_response_error ∧
    get_gemini_response (some k) msgs responses = Except.ok (api_response_error, []) := by
  have hx := extract_reply_of_lacks_shape body hbad
  refine ⟨hx, ?_⟩
  rw [get_gemini_response_eq_loop k hk msgs responses]
  simp [gemini_retry_loop, h0, hx]

/-- C7 witness for `malformed_200_returns_fixed_error`: a 200 body whose
first candidate has no content. -/
theorem malformed_200_returns_fixed_error_witness :
    extract_reply (some ⟨some [⟨none⟩]⟩) = Except.ok api_response_error ∧
    get_gemini_response (some "key") []
        (fun _ => HttpOutcome.success (some ⟨some [⟨none⟩]⟩))
      = Except.ok (api_response_error, []) :=
  malformed_200_returns_fixed_error "key" (by decide) []
    (fun _ => HttpOutcome.success (some ⟨some [⟨none⟩]⟩))
    (some ⟨some [⟨none⟩]⟩) rfl rfl

lemma insertIdx_length_sub_one {α : Type} (x : α) :
    ∀ (l : List α) (h : l ≠ []),
      l.insertIdx (l.length - 1) x = l.dropLast ++ [x, l.getLast h]
  | [], h => absurd rfl h
  | [a], _ => rfl
  | a :: b :: t, _ => by
    have ih := insertIdx_length_sub_one x (b :: t) (by simp)
    simp only [List.length_cons, Nat.add_sub_cancel] at ih ⊢
    rw [List.insertIdx_succ_cons, ih]
    rfl

/-- C3: for a conversation with the system message first and the latest user
turn last, injecting an active snapshot yields a sequence of length
`input length + 1`, with the synthetic context message at index
`input length - 1` — immediately before the former last element — and every
other message in its original relative order. -/
theorem context_injection_shape (messages : List Message) (data : StockData)
    (hne : messages ≠ [])
    (hsys : messages.head?.map Message.role = some "system")
    (huser : messages.getLast?.map Message.role = some "user") :
    (inject_context messages (some data)).length = messages.length + 1 ∧
    (inject_context messages (some data))[messages.length - 1]? = some (context_message data) ∧
    inject_context messages (some data)
      = messages.dropLast ++ [context_message data, messages.getLast hne] := by
  have hins : inject_context messages (some data)
      = messages.dropLast ++ [context_message data, messages.getLast hne] := by
    simp only [inject_context]
    exact insertIdx_length_sub_one (context_message data) messages hne
  have hdl : messages.dropLast.length = messages.length - 1 := List.length_dropLast messages
  refine ⟨?_, ?_, hins⟩
  · have h2 : [context_message data, messages.getLast hne].length = 2 := rfl
    rw [hins, List.length_append, hdl, h2]
    have : 1 ≤ messages.length := List.length_pos.mpr hne
    omega
  · rw [hins, List.getElem?_append_right (by omega), hdl, Nat.sub_self]
    rfl

/-- C3 witness for `context_injection_shape`. -/
theorem context_injection_shape_witness :
    (inject_context [system_message, { role := "user", content := "How is it doing?" }]
        (some { symbol := "AAPL", shortName := "Apple Inc.", sector := "Technology",
                currentPrice := "255.46", fiftyTwoWeekHigh := "260.10",
                fiftyTwoWeekLow := "169.21", longBusinessSummary := "Apple designs phones.",
                marketCap := "3.7T" })).length = 3 :=
  (context_injection_shape
    [system_message, { role := "user", content := "How is it doing?" }]
    { symbol := "AAPL", shortName := "Apple Inc.", sector := "Technology",
      currentPrice := "255.46", fiftyTwoWeekHigh := "260.10",
      fiftyTwoWeekLow := "169.21", longBusinessSummary := "Apple designs phones.",
      marketCap := "3.7T" }
    (by decide) (by decide) (by decide)).1

lemma chat_submission_handler_spec (apiKey : Option String) (responses : Nat → HttpOutcome)
    (persist : Option (Except String Unit)) (st : SessionState) (input : String)
    (reply : String) (sleeps : List Nat)
    (hgen : get_gemini_response apiKey
        (inject_context (append_user_guarded st.messages input) st.stock_data) responses
      = Except.ok (reply, sleeps)) :
    chat_submission_handler apiKey responses persist st input
      = Except.ok
          { state := { st with
              messages := append_user_guarded st.messages input
                ++ [{ role := "assistant", content := reply }] }
            api_messages := inject_context (append_user_guarded st.messages input) st.stock_data
            sleeps := sleeps
            persist_warning :=
              match persist with
              | some (Except.error e) => some ("Failed to save history to Firestore: " ++ e)
              | _ => none } := by
  simp only [chat_submission_handler, hgen]

lemma chat_submission_handler_ok_inv (apiKey : Option String) (responses : Nat → HttpOutcome)
    (persist : Option (Except String Unit)) (st : SessionState) (input : String)
    (r : TurnResult)
    (hok : chat_submission_handler apiKey responses persist st input = Except.ok r) :
    ∃ reply sleeps,
      get_gemini_response apiKey
          (inject_context (append_user_guarded st.messages input) st.stock_data) responses
        = Except.ok (reply, sleeps) ∧
      r.api_messages = inject_context (append_user_guarded st.messages input) st.stock_data ∧
      r.state.messages = append_user_guarded st.messages input
        ++ [{ role := "assistant", content := reply }] := by
  simp only [chat_submission_handler] at hok
  cases hg : get_gemini_response apiKey
      (inject_context (append_user_guarded st.messages input) st.stock_data) responses with
  | error e => rw [hg] at hok; simp at hok
  | ok pr =>
    obtain ⟨reply, sleeps⟩ := pr
    rw [hg] at hok
    simp only [Except.ok.injEq] at hok
    exact ⟨reply, sleeps, rfl, by rw [← hok], by rw [← hok]⟩

/-- C9: with no active snapshot the context injector is the identity, and the
outbound sequence a completed turn hands to the generation client is
literally the stored conversation after the (guarded) user append — same
length, same content, and the stored conversation is left unmutated by the
build (the assistant reply is appended to the same list afterwards). -/
theorem no_snapshot_outbound_equals_conversation (st : SessionState) (input : String)
    (apiKey : Option String) (responses : Nat → HttpOutcome)
    (persist : Option (Except String Unit)) (r : TurnResult)
    (hnone : st.stock_data = none)
    (hok : chat_submission_handler apiKey responses persist st input = Except.ok r) :
    (∀ msgs : List Message, inject_context msgs none = msgs) ∧
    r.api_messages = append_user_guarded st.messages input ∧
    (∃ reply, r.state.messages = r.api_messages
      ++ [{ role := "assistant", content := reply }]) := by
  obtain ⟨reply, sleeps, _, hapi, hmsgs⟩ :=
    chat_submission_handler_ok_inv apiKey responses persist st input r hok
  rw [hnone] at hapi
  exact ⟨fun _ => rfl, hapi, ⟨reply, by rw [hmsgs, hapi]; rfl⟩⟩

/-- C9 witness for `no_snapshot_outbound_equals_conversation`. -/
theorem no_snapshot_outbound_equals_conversation_witness :
    (∀ msgs : List Message, inject_context msgs none = msgs) ∧
    (chat_submission_handler (some "key")
        (fun _ => HttpOutcome.success (some ⟨some [⟨some ⟨[⟨some "Fine."⟩]⟩⟩]⟩))
        none { messages := [system_message], stock_data := none, chat_input_text := "" }
        "hello").isOk = true := by
  have h := no_snapshot_outbound_equals_conversation
    { messages := [system_message], stock_data := none, chat_input_text := "" } "hello"
    (some "key") (fun _ => HttpOutcome.success (some ⟨some [⟨some ⟨[⟨some "Fine."⟩]⟩⟩]⟩))
    none
    { state := { messages := [system_message, { role := "user", content := "hello" },
                             { role := "assistant", content := "Fine." }],
                 stock_data := none, chat_input_text := "" }
      api_messages := [system_message, { role := "user", content := "hello" }]
      sleeps := []
      persist_warning := none }
    rfl rfl
  exact ⟨h.1, rfl⟩

/-- C10: a persistence write that raises after a completed turn is contained:
the handler still returns normally with the assistant reply appended to the
in-memory conversation, the exception surfaces only as a warning string, and
the resulting session state is identical to the one a successful write
produces — the session is back at Idle, ready for the next turn. -/
theorem persist_failure_contained (st : SessionState) (input : String)
    (apiKey : Option String) (responses : Nat → HttpOutcome)
    (e reply : String) (sleeps : List Nat)
    (hgen : get_gemini_response apiKey
        (inject_context (append_user_guarded st.messages input) st.stock_data) responses
      = Except.ok (reply, sleeps)) :
    chat_submission_handler apiKey responses (some (Except.error e)) st input
      = Except.ok
          { state := { st with
              messages := append_user_guarded st.messages input
                ++ [{ role := "assistant", content := reply }] }
            api_messages := inject_context (append_user_guarded st.messages input) st.stock_data
            sleeps := sleeps
            persist_warning := some ("Failed to save history to Firestore: " ++ e) } ∧
    (chat_submission_handler apiKey responses (some (Except.error e)) st input).map
        TurnResult.state
      = (chat_submission_handler apiKey responses (some (Except.ok ())) st input).map
          TurnResult.state := by
  have h1 := chat_submission_handler_spec apiKey responses (some (Except.error e)) st input
    reply sleeps hgen
  have h2 := chat_submission_handler_spec apiKey responses (some (Except.ok ())) st input
    reply sleeps hgen
  exact ⟨h1, by rw [h1, h2]; rfl⟩

/-- C10 witness for `persist_failure_contained`. -/
theorem persist_failure_contained_witness :
    (chat_submission_handler (some "key")
        (fun _ => HttpOutcome.success (some ⟨some [⟨some ⟨[⟨some "Fine."⟩]⟩⟩]⟩))
        (some (Except.error "firestore down"))
        { messages := [system_message], stock_data := none, chat_input_text := "" }
        "hello").map TurnResult.state
      = (chat_submission_handler (some "key")
          (fun _ => HttpOutcome.success (some ⟨some [⟨some ⟨[⟨some "Fine."⟩]⟩⟩]⟩))
          (some (Except.ok ()))
          { messages := [system_message], stock_data := none, chat_input_text := "" }
          "hello").map TurnResult.state :=
  (persist_failure_contained
    { messages := [system_message], stock_data := none, chat_input_text := "" } "hello"
    (some "key") (fun _ => HttpOutcome.success (some ⟨some [⟨some ⟨[⟨some "Fine."⟩]⟩⟩]⟩))
    "firestore down" "Fine." [] rfl).2

/-- C1 counterexample: replaying the historical query "How is AAPL doing?"
from the sidebar of a fresh session appends it as a user message and nothing
else — the conversation ends with the user turn, not with an assistant
reply, because the rerun's `st.chat_input` yields no fresh submission and the
generation client is never invoked. -/
theorem replayed_query_ends_without_reply :
    (replay_query_turn
        { messages := [system_message], stock_data := none, chat_input_text := "" }
        "How is AAPL doing?").messages
      = [system_message, { role := "user", content := "How is AAPL doing?" }] ∧
    ¬ ((replay_query_turn
          { messages := [system_message], stock_data := none, chat_input_text := "" }
          "How is AAPL doing?").messages.getLast?.map Message.role
        = some "assistant") :=
  ⟨rfl, by decide⟩

/-- C1 (amended): a replayed historical query only appends the query as a
user message (and stores it in `chat_input_text`); the context injector and
generation client are not invoked, no assistant reply is appended, and after
the turn the conversation ends with `[..., user(query)]`. -/
theorem replayed_query_appends_user_only (st : SessionState) (query : String) :
    (replay_query_turn st query).messages
      = st.messages ++ [{ role := "user", content := query }] ∧
    (replay_query_turn st query).chat_input_text = query ∧
    (replay_query_turn st query).stock_data = st.stock_data ∧
    (replay_query_turn st query).messages.getLast?
      = some { role := "user", content := query } := by
  refine ⟨rfl, rfl, rfl, ?_⟩
  simp [replay_query_turn, set_chat_input]

/-- Sample active snapshot used by the C5 counterexample. -/
def sample_snapshot : StockData :=
  { symbol := "AAPL", shortName := "Apple Inc.", sector := "Technology",
    currentPrice := "255.46", fiftyTwoWeekHigh := "260.10", fiftyTwoWeekLow := "169.21",
    longBusinessSummary := "Apple designs phones.", marketCap := "3.7T" }

/-- C5 counterexample: with AAPL active, a lookup of "ZZZZ" that fails (the
oracle raises / returns no price) does not leave the previous snapshot
active — the handler stores the `None` result, clearing it. -/
theorem failed_lookup_clears_snapshot :
    (fetch_and_set_context
        { messages := [system_message], stock_data := some sample_snapshot,
          chat_input_text := "" }
        "ZZZZ" none).stock_data = none ∧
    (none : Option StockData) ≠ some sample_snapshot :=
  ⟨rfl, by decide⟩

/-- C5 (amended): every lookup attempt with a nonempty symbol input stores
`fetch_stock_data`'s result into the active snapshot slot wholesale — a
successful lookup installs the new snapshot (and resets the conversation),
while a failed lookup clears the slot to `None` rather than leaving the
previously active snapshot in place; only an empty symbol input leaves the
session unchanged. -/
theorem lookup_overwrites_snapshot (st : SessionState) (symbol : String)
    (info : Option TickerInfo) (hsym : symbol ≠ "") :
    (fetch_and_set_context st symbol info).stock_data = fetch_stock_data symbol info ∧
    (fetch_stock_data symbol info = none →
      (fetch_and_set_context st symbol info).messages = st.messages) ∧
    (∀ d, fetch_stock_data symbol info = some d →
      (fetch_and_set_context st symbol info).messages = initial_messages) ∧
    fetch_and_set_context st "" info = st := by
  unfold fetch_and_set_context
  rw [if_pos hsym]
  cases h : fetch_stock_data symbol info <;> simp [h]

/-- C5 witness for `lookup_overwrites_snapshot`. -/
theorem lookup_overwrites_snapshot_witness :
    (fetch_and_set_context
        { messages := [system_message], stock_data := some sample_snapshot,
          chat_input_text := "" }
        "ZZZZ" none).stock_data = fetch_stock_data "ZZZZ" none :=
  (lookup_overwrites_snapshot
    { messages := [system_message], stock_data := some sample_snapshot,
      chat_input_text := "" }
    "ZZZZ" none (by decide)).1

/-- The Conversation-Store invariant: the first stored message has role
`system`. -/
def first_is_system (messages : List Message) : Prop :=
  messages.head?.map Message.role = some "system"

/-- C8: every operation that mutates the stored conversation preserves
"first message has role system": fresh initialisation, loading persisted
history (in particular, a persisted document whose first message is not a
system message gets the system prompt inserted at index 0), the sidebar
user append, the chat submission turn (user append then assistant append),
and the snapshot handler's reset. -/
theorem system_message_first_invariant :
    first_is_system initial_messages ∧
    (∀ doc, first_is_system (load_chat_history doc)) ∧
    (∀ m ms, m.role ≠ "system" →
      load_chat_history (some (m :: ms)) = system_message :: m :: ms) ∧
    (∀ (st : SessionState) (query : String), first_is_system st.messages →
      first_is_system (set_chat_input st query).messages) ∧
    (∀ (apiKey : Option String) (responses : Nat → HttpOutcome)
        (persist : Option (Except String Unit)) (st : SessionState) (input : String)
        (r : TurnResult), first_is_system st.messages →
      chat_submission_handler apiKey responses persist st input = Except.ok r →
      first_is_system r.state.messages) ∧
    (∀ (st : SessionState) (symbol : String) (info : Option TickerInfo),
      first_is_system st.messages →
      first_is_system (fetch_and_set_context st symbol info).messages) := by
  have happend : ∀ (msgs : List Message) (tail : List Message),
      first_is_system msgs → first_is_system (msgs ++ tail) := by
    intro msgs tail h
    cases msgs with
    | nil => simp [first_is_system] at h
    | cons a l => simpa [first_is_system] using h
  refine ⟨rfl, ?_, ?_, ?_, ?_, ?_⟩
  · intro doc
    cases doc with
    | none => rfl
    | some loaded =>
      by_cases h : (loaded.head?.map Message.role) ≠ some "system"
      · simp only [load_chat_history, if_pos h]
        rfl
      · simp only [load_chat_history, if_neg h, first_is_system]
        exact not_not.mp h
  · intro m ms hrole
    simp only [load_chat_history, List.head?_cons, Option.map_some]
    rw [if_pos (by simpa using hrole)]
  · intro st query h
    exact happend st.messages _ h
  · intro apiKey responses persist st input r h hok
    obtain ⟨reply, sleeps, _, _, hmsgs⟩ :=
      chat_submission_handler_ok_inv apiKey responses persist st input r hok
    rw [hmsgs]
    unfold append_user_guarded
    by_cases hdup : ¬ (st.messages.getLast?.map Message.content = some input)
    · rw [if_pos hdup, List.append_assoc]
      exact happend st.messages _ h
    · rw [if_neg hdup]
      exact happend st.messages _ h
  · intro st symbol info h
    unfold fetch_and_set_context
    by_cases hsym : symbol ≠ ""
    · rw [if_pos hsym]
      cases hd : fetch_stock_data symbol info
      · simpa using h
      · rfl
    · rw [if_neg hsym]
      exact h

/-- C8 witness for `system_message_first_invariant`: a persisted document
starting with a user message gets the system prompt inserted at index 0. -/
theorem system_message_first_invariant_witness :
    load_chat_history (some [{ role := "user", content := "old question" }])
      = system_message :: [{ role := "user", content := "old question" }] ∧
    first_is_system (set_chat_input
        { messages := [system_message], stock_data := none, chat_input_text := "" }
        "q").messages :=
  ⟨system_message_first_invariant.2.2.1 { role := "user", content := "old question" } []
      (by decide),
   system_message_first_invariant.2.2.2.1
      { messages := [system_message], stock_data := none, chat_input_text := "" } "q" rfl⟩

end StockBot
